import Mathlib

/-!
Verification development for Tools/SendRawEthernetFrame.

The script SendRawEthernetFrame.py opens a raw AF_PACKET socket, binds it
to the interface eth0, and sends a single hand-crafted Ethernet frame built
by concatenating the destination MAC, source MAC, EtherType, payload and an
(empty) CRC-32 trailer.  Bytes are modelled as lists of naturals; the
fallible FrameBuilder / FrameTransmitter contracts described in the design
document are modelled explicitly where the script inlines or omits them.
-/

namespace SendRawEthernetFrame

/-- A byte string, as in the Python source a plain sequence of byte values. -/
abbrev Bytes := List Nat

/-- Source line 59: the hardcoded interface the socket is bound to. -/
def interface_name : String := "eth0"

/-- Source line 69: source MAC address bytes. -/
def src_mac_addr : Bytes := [0x01, 0x02, 0x03, 0x04, 0x05, 0x06]

/-- Source line 70: destination MAC address bytes. -/
def dst_mac_addr : Bytes := [0x01, 0x02, 0x03, 0x04, 0x05, 0x06]

/-- Source line 72: the EtherType bytes. -/
def ethertype : Bytes := [0x08, 0x01]

/-- Source line 74: the payload, one hundred repetitions of the byte for P. -/
def payload : Bytes := List.replicate 100 0x50

/-- Source line 78: the CRC-32 trailer, left empty in the script. -/
def crc32 : Bytes := []

/-- Source line 80: the frame is the plain concatenation
dst_mac_addr + src_mac_addr + ethertype + payload + crc32, generalized over
the five byte strings exactly as the expression uses its five variables. -/
def frameBytes (dst src ethertype payload trailer : Bytes) : Bytes :=
  dst ++ src ++ ethertype ++ payload ++ trailer

/-- The concrete frame the script passes to send on line 80. -/
def scriptFrame : Bytes :=
  frameBytes dst_mac_addr src_mac_addr ethertype payload crc32

/-- Error of the FrameBuilder contract in the design document. -/
inductive BuildError
  | InvalidFieldLength
deriving DecidableEq, Repr

/-- Length check of the optional trailer: absent, or exactly 4 bytes. -/
def trailerLenOk : Option Bytes → Bool
  | none => true
  | some t => t.length == 4

/-- Modelled from the spec: the FrameBuilder `build` contract is not in
src/ (the script inlines the concatenation at line 80 and performs no
validation).  Per the spec, `build` fails with InvalidFieldLength when dst,
src or ethertype miss their fixed sizes or a present trailer is not 4
bytes, and otherwise returns the fields concatenated in order. -/
def build (dst src ethertype payload : Bytes) (trailer : Option Bytes) :
    Except BuildError Bytes :=
  if dst.length == 6 && src.length == 6 && ethertype.length == 2
      && trailerLenOk trailer then
    Except.ok (frameBytes dst src ethertype payload (trailer.getD []))
  else
    Except.error BuildError.InvalidFieldLength

/-- Errors of the FrameTransmitter contract in the design document. -/
inductive TxError
  | PermissionDenied
  | InterfaceNotFound
  | BindError
  | TransmitError
  | InvalidState
deriving DecidableEq, Repr

/-- The host environment seen by the transmitter: which interfaces exist,
whether raw-socket privilege is granted, and whether binding hits some
other failure. -/
structure Host where
  interfaces : List String
  allowRawSockets : Bool
  bindGlitch : Bool
deriving DecidableEq, Repr

/-- A transmitter handle: the bound interface, the open/closed state, and
the frames transmitted so far on it. -/
structure Handle where
  iface : String
  isOpen : Bool
  transmitted : List Bytes
deriving DecidableEq, Repr

/-- Modelled from the spec: FrameTransmitter.open is not in src/ as a
reusable operation (the script creates and binds the socket inline, lines
61 to 66).  Privilege is checked at socket creation, before binding, as in
the script; a missing interface gives InterfaceNotFound; any other binding
failure gives BindError. -/
def openHandle (host : Host) (interfaceName : String) :
    Except TxError Handle :=
  if !host.allowRawSockets then
    Except.error TxError.PermissionDenied
  else if !(host.interfaces.contains interfaceName) then
    Except.error TxError.InterfaceNotFound
  else if host.bindGlitch then
    Except.error TxError.BindError
  else
    Except.ok { iface := interfaceName, isOpen := true, transmitted := [] }

/-- Modelled from the spec: FrameTransmitter.close releases the handle;
the script never calls it. -/
def close (h : Handle) : Handle :=
  { h with isOpen := false }

/-- Modelled from the spec: FrameTransmitter.send writes the exact bytes
of a frame as a single transmission unit, or fails entirely.  The boolean
linkOk stands for the environment accepting or rejecting the underlying
write; on a closed handle send fails with InvalidState. -/
def send (h : Handle) (frame : Bytes) (linkOk : Bool) :
    Except TxError Unit × Handle :=
  if h.isOpen then
    if linkOk then
      (Except.ok (), { h with transmitted := h.transmitted ++ [frame] })
    else
      (Except.error TxError.TransmitError, h)
  else
    (Except.error TxError.InvalidState, h)

/-- The observable operations the script performs on the socket, in the
order its top-level statements run. -/
inductive SyscallEvent
  | socketCreateRawAfPacket
  | setsockoptCall (level optname value : Nat)
  | bindCall (iface : String) (protocol : Nat)
  | sendCall (data : Bytes)
  | closeCall
deriving DecidableEq, Repr

/-- The trace of socket operations of one run of the script: create the
raw AF_PACKET socket (line 61), bind it to eth0 with protocol 0 (line 66),
and send the frame (line 80).  The setsockopt SO_NOFCS call exists only as
a comment on line 64 and the socket is never closed explicitly. -/
def scriptTrace : List SyscallEvent :=
  [ SyscallEvent.socketCreateRawAfPacket,
    SyscallEvent.bindCall interface_name 0,
    SyscallEvent.sendCall scriptFrame ]

/-- Recognizes a send event. -/
def isSendEvent : SyscallEvent → Bool
  | SyscallEvent.sendCall _ => true
  | _ => false

/-- Recognizes a setsockopt event. -/
def isSetsockoptEvent : SyscallEvent → Bool
  | SyscallEvent.setsockoptCall _ _ _ => true
  | _ => false

/-- Recognizes a close event. -/
def isCloseEvent : SyscallEvent → Bool
  | SyscallEvent.closeCall => true
  | _ => false

/-- A concrete handle in the Open state, as openHandle returns it. -/
def openH : Handle :=
  { iface := interface_name, isOpen := true, transmitted := [] }

/-- A concrete host offering only eth0, with raw-socket privilege. -/
def host0 : Host :=
  { interfaces := [interface_name], allowRawSockets := true,
    bindGlitch := false }

/-- A concrete interface name that the host host0 does not offer. -/
def nonexistent0 : String := "nonexistent0"

/-- Taking the length of the first list from a concatenation returns it. -/
theorem take_append_len (a b : Bytes) : (a ++ b).take a.length = a := by
  induction a with
  | nil => simp
  | cons x xs ih => simp [ih]

/-- Dropping the length of the first list from a concatenation returns
the second. -/
theorem drop_append_len (a b : Bytes) : (a ++ b).drop a.length = b := by
  induction a with
  | nil => simp
  | cons x xs ih => simp [ih]

end SendRawEthernetFrame

namespace SendRawEthernetFrame

/-- C1: for every 6-byte dst and src, 2-byte ethertype, payload of at most
1500 bytes and optional 4-byte trailer, build returns a single byte
sequence that is the fields concatenated in order dst, src, ethertype,
payload, trailer, of length 14 + payload length + 4 when a trailer is
present and 14 + payload length otherwise. -/
theorem C1_build_valid (dst src et p : Bytes) (t : Option Bytes)
    (hd : dst.length = 6) (hs : src.length = 6) (he : et.length = 2)
    (hp : p.length ≤ 1500) (ht : trailerLenOk t = true) :
    build dst src et p t
      = Except.ok (dst ++ src ++ et ++ p ++ t.getD []) ∧
    (dst ++ src ++ et ++ p ++ t.getD []).length
      = 14 + p.length + (if t.isSome then 4 else 0) := by
  constructor
  · simp [build, frameBytes, hd, hs, he, ht]
  · cases t with
    | none => simp [hd, hs, he]; omega
    | some tr =>
        have htr : tr.length = 4 := by
          simpa [trailerLenOk] using ht
        simp [hd, hs, he, htr]; omega

/-- Witness for C1 at the literals of the script, with no trailer. -/
theorem C1_build_valid_witness :
    build dst_mac_addr src_mac_addr ethertype payload none
      = Except.ok (dst_mac_addr ++ src_mac_addr ++ ethertype ++ payload
          ++ (none : Option Bytes).getD []) ∧
    (dst_mac_addr ++ src_mac_addr ++ ethertype ++ payload
        ++ (none : Option Bytes).getD []).length
      = 14 + payload.length + (if (none : Option Bytes).isSome then 4 else 0) :=
  C1_build_valid dst_mac_addr src_mac_addr ethertype payload none
    (by decide) (by decide) (by decide) (by decide) (by decide)

/-- C2: whenever dst, src or ethertype misses its fixed size, or a present
trailer is not 4 bytes, build fails with InvalidFieldLength. -/
theorem C2_build_invalid (dst src et p : Bytes) (t : Option Bytes)
    (h : ¬(dst.length = 6 ∧ src.length = 6 ∧ et.length = 2
            ∧ trailerLenOk t = true)) :
    build dst src et p t = Except.error BuildError.InvalidFieldLength := by
  cases hcond : (dst.length == 6 && src.length == 6 && et.length == 2
      && trailerLenOk t) with
  | false => simp [build, hcond]
  | true =>
      exfalso
      apply h
      simp only [Bool.and_eq_true, beq_iff_eq] at hcond
      exact ⟨hcond.1.1.1, hcond.1.1.2, hcond.1.2, hcond.2⟩

/-- Witness for C2: a 3-byte dst fails with InvalidFieldLength. -/
theorem C2_build_invalid_witness :
    build [0x01, 0x02, 0x03] src_mac_addr ethertype payload none
      = Except.error BuildError.InvalidFieldLength :=
  C2_build_invalid [0x01, 0x02, 0x03] src_mac_addr ethertype payload none
    (by decide)

/-- C3: with the literals of the script (dst = src = 01:02:03:04:05:06,
ethertype 0x0801, payload of one hundred bytes 0x50, no trailer) build
produces exactly the 114-byte frame the script sends: first 6 bytes the
dst, next 6 the src, next 2 the bytes 08 01, remaining 100 the byte 0x50
repeated. -/
theorem C3_scenario1 :
    build dst_mac_addr src_mac_addr ethertype payload none
      = Except.ok scriptFrame ∧
    scriptFrame.length = 114 ∧
    scriptFrame.take 6 = dst_mac_addr ∧
    (scriptFrame.drop 6).take 6 = src_mac_addr ∧
    (scriptFrame.drop 12).take 2 = [0x08, 0x01] ∧
    scriptFrame.drop 14 = List.replicate 100 0x50 := by
  refine ⟨rfl, ?_, ?_, ?_, ?_, ?_⟩ <;> decide

/-- C4: splitting the output of build at the known offsets recovers every
field: bytes 0 to 5 are the dst, 6 to 11 the src, 12 to 13 the ethertype,
the next payload-length bytes the payload, and the rest the trailer. -/
theorem C4_roundtrip (dst src et p : Bytes) (t : Option Bytes)
    (hd : dst.length = 6) (hs : src.length = 6) (he : et.length = 2)
    (hp : p.length ≤ 1500) (ht : trailerLenOk t = true) :
    ∀ f, build dst src et p t = Except.ok f →
      f.take 6 = dst ∧
      (f.drop 6).take 6 = src ∧
      (f.drop 12).take 2 = et ∧
      (f.drop 14).take p.length = p ∧
      f.drop (14 + p.length) = t.getD [] := by
  intro f hf
  have hcond : (dst.length == 6 && src.length == 6 && et.length == 2
      && trailerLenOk t) = true := by
    simp [hd, hs, he, ht]
  rw [build, if_pos hcond] at hf
  have hfeq : f = dst ++ (src ++ (et ++ (p ++ t.getD []))) := by
    have := hf
    simp [frameBytes] at this
    exact this.symm
  subst hfeq
  have h6 : (dst ++ (src ++ (et ++ (p ++ t.getD [])))).drop 6
      = src ++ (et ++ (p ++ t.getD [])) := by
    rw [← hd]; exact drop_append_len dst _
  have h12 : (dst ++ (src ++ (et ++ (p ++ t.getD [])))).drop 12
      = et ++ (p ++ t.getD []) := by
    have : (12 : Nat) = 6 + 6 := by omega
    rw [this, ← List.drop_drop, h6, ← hs]
    exact drop_append_len src _
  have h14 : (dst ++ (src ++ (et ++ (p ++ t.getD [])))).drop 14
      = p ++ t.getD [] := by
    have h2 : (14 : Nat) = 12 + 2 := by omega
    rw [h2, ← List.drop_drop, h12, ← he]
    exact drop_append_len et _
  refine ⟨?_, ?_, ?_, ?_, ?_⟩
  · rw [← hd]; exact take_append_len dst _
  · rw [h6, ← hs]; exact take_append_len src _
  · rw [h12, ← he]; exact take_append_len et _
  · rw [h14]; exact take_append_len p _
  · rw [← List.drop_drop, h14]
    exact drop_append_len p _

/-- Witness for C4 at the literals of the script, with no trailer. -/
theorem C4_roundtrip_witness :
    scriptFrame.take 6 = dst_mac_addr ∧
    (scriptFrame.drop 6).take 6 = src_mac_addr ∧
    (scriptFrame.drop 12).take 2 = ethertype ∧
    (scriptFrame.drop 14).take payload.length = payload ∧
    scriptFrame.drop (14 + payload.length) = (none : Option Bytes).getD [] :=
  C4_roundtrip dst_mac_addr src_mac_addr ethertype payload none
    (by decide) (by decide) (by decide) (by decide) (by decide)
    scriptFrame rfl

/-- C5: build is deterministic, a pure data transformation: two calls on
componentwise identical inputs return byte-identical output. -/
theorem C5_deterministic (d1 s1 e1 p1 : Bytes) (t1 : Option Bytes)
    (d2 s2 e2 p2 : Bytes) (t2 : Option Bytes)
    (hd : d1 = d2) (hs : s1 = s2) (he : e1 = e2) (hp : p1 = p2)
    (ht : t1 = t2) :
    build d1 s1 e1 p1 t1 = build d2 s2 e2 p2 t2 := by
  subst hd hs he hp ht; rfl

/-- Witness for C5 at the literals of the script. -/
theorem C5_deterministic_witness :
    build dst_mac_addr src_mac_addr ethertype payload none
      = build dst_mac_addr src_mac_addr ethertype payload none :=
  C5_deterministic dst_mac_addr src_mac_addr ethertype payload none
    dst_mac_addr src_mac_addr ethertype payload none
    rfl rfl rfl rfl rfl

/-- C6: on an open handle, send either transmits the complete byte
sequence of the frame as one unit (it is appended whole to the transmitted
frames) or fails entirely with TransmitError leaving the handle
unchanged. -/
theorem C6_send_atomic (h : Handle) (frame : Bytes) (linkOk : Bool)
    (hOpen : h.isOpen = true) :
    ((send h frame linkOk).fst = Except.ok () ∧
     (send h frame linkOk).snd.transmitted = h.transmitted ++ [frame]) ∨
    ((send h frame linkOk).fst = Except.error TxError.TransmitError ∧
     (send h frame linkOk).snd = h) := by
  cases linkOk with
  | false => right; simp [send, hOpen]
  | true => left; simp [send, hOpen]

/-- Witness for C6 on a concrete open handle and the script frame. -/
theorem C6_send_atomic_witness :
    ((send openH scriptFrame true).fst = Except.ok () ∧
     (send openH scriptFrame true).snd.transmitted
       = openH.transmitted ++ [scriptFrame]) ∨
    ((send openH scriptFrame true).fst = Except.error TxError.TransmitError ∧
     (send openH scriptFrame true).snd = openH) :=
  C6_send_atomic openH scriptFrame true rfl

/-- C7: on a host granting raw-socket privilege, opening an interface name
the host does not offer fails with InterfaceNotFound and with no other
error of the taxonomy. -/
theorem C7_open_notfound (host : Host) (interfaceName : String)
    (hPriv : host.allowRawSockets = true)
    (hMissing : host.interfaces.contains interfaceName = false) :
    openHandle host interfaceName
      = Except.error TxError.InterfaceNotFound := by
  have hm : interfaceName ∉ host.interfaces := by simpa using hMissing
  simp [openHandle, hPriv, hm]

/-- Witness for C7: opening nonexistent0 on a host offering only eth0
fails with InterfaceNotFound. -/
theorem C7_open_notfound_witness :
    openHandle host0 nonexistent0 = Except.error TxError.InterfaceNotFound :=
  C7_open_notfound host0 nonexistent0 rfl (by decide)

/-- C8: the handle follows Closed to Open via openHandle and back to
Closed via close: a successfully opened handle is Open, send succeeds only
on an Open handle, and send after close fails with InvalidState. -/
theorem C8_state_machine (host : Host) (name : String) (h : Handle)
    (frame : Bytes) (linkOk : Bool) :
    (∀ h2, openHandle host name = Except.ok h2 → h2.isOpen = true) ∧
    ((send h frame linkOk).fst = Except.ok () → h.isOpen = true) ∧
    (send (close h) frame linkOk).fst
      = Except.error TxError.InvalidState := by
  refine ⟨?_, ?_, ?_⟩
  · intro h2 hh
    unfold openHandle at hh
    split at hh
    · exact absurd hh (by simp)
    · split at hh
      · exact absurd hh (by simp)
      · split at hh
        · exact absurd hh (by simp)
        · cases hh; rfl
  · intro hok
    by_cases hob : h.isOpen
    · exact hob
    · exfalso
      simp [send, hob] at hok
  · simp [send, close]

/-- Witness for C8 on a concrete handle: send after close fails with
InvalidState. -/
theorem C8_state_machine_witness :
    (send (close openH) scriptFrame true).fst
      = Except.error TxError.InvalidState :=
  (C8_state_machine host0 interface_name openH scriptFrame true).2.2

/-- C9: frame construction in the code is total and validates nothing: for
byte strings of arbitrary lengths the frame is exactly the concatenation
dst ++ src ++ ethertype ++ payload ++ trailer, of length the sum of the
input lengths, with no error branch in its type. -/
theorem C9_total_concat (dst src et p tr : Bytes) :
    frameBytes dst src et p tr = dst ++ src ++ et ++ p ++ tr ∧
    (frameBytes dst src et p tr).length
      = dst.length + src.length + et.length + p.length + tr.length := by
  refine ⟨rfl, ?_⟩
  simp [frameBytes]
  omega

/-- C10: one run of the script performs exactly the sequence: create one
raw AF_PACKET socket, bind it to eth0, send the frame once; there is no
setsockopt call, no close call, and no second send. -/
theorem C10_script_sequence :
    scriptTrace
      = [ SyscallEvent.socketCreateRawAfPacket,
          SyscallEvent.bindCall interface_name 0,
          SyscallEvent.sendCall scriptFrame ] ∧
    scriptTrace.countP (fun e => isSendEvent e) = 1 ∧
    scriptTrace.countP (fun e => isSetsockoptEvent e) = 0 ∧
    scriptTrace.countP (fun e => isCloseEvent e) = 0 := by
  refine ⟨rfl, ?_, ?_, ?_⟩ <;> rfl

end SendRawEthernetFrame
